import Mathlib

/-
  Verification of the DevPulse cache-aside synchronization engine.

  Shallow embedding of:
  - backend/services/databaseService.js  (store operations, staleness policy)
  - backend/services/syncService.js      (sync orchestrator)
  - backend/controllers/githubController.js (cache-aside controller, getUser)

  External collaborators (the GitHub gateway and the possibility of store
  failures) are modelled by an `Env` record fixing, for one request, the
  outcome of each external call.  State is threaded explicitly as a `DB`
  value plus a trace of gateway invocations.
-/

namespace DevPulse

/-- Profile data returned by githubService.getUserProfile:
fields exactly as built in githubService.js. -/
structure ProfileDTO where
  github_id : Nat
  username : String
  name : String
  avatar_url : String
  bio : String
  public_repos : Nat
  followers : Nat
  following : Nat
  created_at : Int
  updated_at : Int
deriving DecidableEq, Repr

/-- Event data returned by githubService.getUserEvents. -/
structure EventDTO where
  id : Nat
  type : String
  repo : String
  payload : String
  created_at : Int
deriving DecidableEq, Repr

/-- Repository data returned by githubService.getUserRepositories. -/
structure RepoDTO where
  id : Nat
  name : String
  full_name : String
  description : String
  language : String
  stargazers_count : Nat
  forks_count : Nat
  open_issues_count : Nat
  created_at : Int
  updated_at : Int
deriving DecidableEq, Repr

/-- A row of the `users` table.  `updated_at` is the last-refresh
timestamp consulted by the staleness check (milliseconds; `none` models
SQL NULL). -/
structure UserRow where
  id : Nat
  username : String
  github_id : Nat
  name : String
  avatar_url : String
  bio : String
  public_repos : Nat
  followers : Nat
  following : Nat
  github_created_at : Int
  updated_at : Option Int
deriving DecidableEq, Repr

/-- A row of the `repositories` table. -/
structure RepoRow where
  github_id : Nat
  user_id : Nat
  name : String
  full_name : String
  description : String
  language : String
  stargazers_count : Nat
  forks_count : Nat
  open_issues_count : Nat
  github_created_at : Int
  github_updated_at : Int
  updated_at : Int
deriving DecidableEq, Repr

/-- A row of the `events` table. -/
structure EventRow where
  github_id : Nat
  user_id : Nat
  event_type : String
  repo_name : String
  payload : String
  github_created_at : Int
deriving DecidableEq, Repr

/-- A row of the `sync_logs` table. -/
structure SyncLogRow where
  id : Nat
  user_id : Nat
  sync_type : String
  status : String
  records_synced : Nat
  error_message : Option String
  started_at : Int
  completed_at : Option Int
deriving DecidableEq, Repr

/-- The relational store. -/
structure DB where
  users : List UserRow
  repositories : List RepoRow
  events : List EventRow
  sync_logs : List SyncLogRow
  nextUserId : Nat
  nextLogId : Nat
deriving DecidableEq, Repr

/-- databaseService.getUserByUsername: SELECT * FROM users WHERE username = $1,
first row or null. -/
def getUserByUsername (username : String) (db : DB) : Option UserRow :=
  db.users.find? (fun u => u.username == username)

/-- The DO UPDATE SET clause of databaseService.upsertUser: updates the
mutable fields and bumps updated_at to CURRENT_TIMESTAMP. -/
def applyProfileUpdate (d : ProfileDTO) (now : Int) (u : UserRow) : UserRow :=
  { u with name := d.name, avatar_url := d.avatar_url, bio := d.bio,
           public_repos := d.public_repos, followers := d.followers,
           following := d.following, updated_at := some now }

/-- databaseService.upsertUser: INSERT ... ON CONFLICT (username) DO UPDATE,
RETURNING the affected row.  On plain insert, updated_at is the tenth
placeholder, that is the profile DTO value, not CURRENT_TIMESTAMP. -/
def upsertUser (d : ProfileDTO) (now : Int) (db : DB) : UserRow × DB :=
  match db.users.find? (fun u => u.username == d.username) with
  | some u =>
      (applyProfileUpdate d now u,
       { db with users := db.users.map (fun v =>
           if v.username == d.username then applyProfileUpdate d now v else v) })
  | none =>
      let u : UserRow :=
        { id := db.nextUserId, username := d.username, github_id := d.github_id,
          name := d.name, avatar_url := d.avatar_url, bio := d.bio,
          public_repos := d.public_repos, followers := d.followers,
          following := d.following, github_created_at := d.created_at,
          updated_at := some d.updated_at }
      (u, { db with users := db.users ++ [u], nextUserId := db.nextUserId + 1 })

/-- One row of databaseService.upsertRepositories: ON CONFLICT (github_id)
DO UPDATE of the mutable fields (full_name and user_id are not updated on
conflict). -/
def upsertRepoRow (userId : Nat) (now : Int) (r : RepoDTO) (rows : List RepoRow) :
    List RepoRow :=
  if rows.any (fun x => x.github_id == r.id) then
    rows.map (fun x =>
      if x.github_id == r.id then
        { x with name := r.name, description := r.description,
                 language := r.language, stargazers_count := r.stargazers_count,
                 forks_count := r.forks_count,
                 open_issues_count := r.open_issues_count,
                 github_updated_at := r.updated_at, updated_at := now }
      else x)
  else
    rows ++ [{ github_id := r.id, user_id := userId, name := r.name,
               full_name := r.full_name, description := r.description,
               language := r.language, stargazers_count := r.stargazers_count,
               forks_count := r.forks_count,
               open_issues_count := r.open_issues_count,
               github_created_at := r.created_at,
               github_updated_at := r.updated_at, updated_at := now }]

/-- databaseService.upsertRepositories: empty list short-circuits to 0;
otherwise a single bulk upsert whose rowCount is the number of VALUES rows. -/
def upsertRepositories (userId : Nat) (repos : List RepoDTO) (now : Int) (db : DB) :
    Nat × DB :=
  match repos with
  | [] => (0, db)
  | _ =>
    (repos.length,
     { db with repositories :=
         repos.foldl (fun rows r => upsertRepoRow userId now r rows) db.repositories })

/-- Whether an events row with the given github_id already exists. -/
def eventIdPresent (evs : List EventRow) (gid : Nat) : Bool :=
  evs.any (fun e => e.github_id == gid)

/-- The events row built from one VALUES tuple of databaseService.insertEvents. -/
def eventRowOf (userId : Nat) (e : EventDTO) : EventRow :=
  { github_id := e.id, user_id := userId, event_type := e.type,
    repo_name := e.repo, payload := e.payload, github_created_at := e.created_at }

/-- databaseService.insertEvents: INSERT ... ON CONFLICT (github_id)
DO NOTHING RETURNING id; rowCount counts only the newly inserted rows.
Empty input short-circuits to 0. -/
def insertEvents (userId : Nat) : List EventDTO → DB → Nat × DB
  | [], db => (0, db)
  | e :: rest, db =>
    if eventIdPresent db.events e.id then
      insertEvents userId rest db
    else
      let db2 : DB := { db with events := db.events ++ [eventRowOf userId e] }
      let r := insertEvents userId rest db2
      (r.1 + 1, r.2)

/-- databaseService.createSyncLog: INSERT INTO sync_logs ... RETURNING the row. -/
def createSyncLog (userId : Nat) (syncType : String) (status : String)
    (recordsSynced : Nat) (errorMessage : Option String) (now : Int) (db : DB) :
    SyncLogRow × DB :=
  let row : SyncLogRow :=
    { id := db.nextLogId, user_id := userId, sync_type := syncType,
      status := status, records_synced := recordsSynced,
      error_message := errorMessage, started_at := now, completed_at := none }
  (row, { db with sync_logs := db.sync_logs ++ [row], nextLogId := db.nextLogId + 1 })

/-- databaseService.updateSyncLog: UPDATE sync_logs SET status, records_synced,
error_message, completed_at WHERE id = $4. -/
def updateSyncLog (syncLogId : Nat) (status : String) (recordsSynced : Nat)
    (errorMessage : Option String) (now : Int) (db : DB) : DB :=
  { db with sync_logs := db.sync_logs.map (fun l =>
      if l.id == syncLogId then
        { l with status := status, records_synced := recordsSynced,
                 error_message := errorMessage, completed_at := some now }
      else l) }

/-- databaseService.isDataStale: true when lastUpdated is null, or when the
elapsed time in minutes, (now - updated) / 1000 / 60, strictly exceeds
maxAgeMinutes.  Timestamps are in milliseconds. -/
def isDataStale (lastUpdated : Option Int) (maxAgeMinutes : Int) (now : Int) : Bool :=
  match lastUpdated with
  | none => true
  | some updated =>
      decide ((((now - updated : Int) : ℚ) / 1000 / 60) > (maxAgeMinutes : ℚ))

/-- Outcomes of the external calls made during one request: the gateway
responses and, for each store write, whether it throws (with which message). -/
structure Env where
  profileResult : Except String ProfileDTO
  reposResult : Except String (List RepoDTO)
  eventsResult : Except String (List EventDTO)
  upsertUserFails : Option String
  upsertReposFails : Option String
  insertEventsFails : Option String
  createSyncLogFails : Option String
  updateSyncLogFails : Option String

/-- A JavaScript value as it participates in a boolean test: either an
actual boolean, or a Promise object (as produced by calling an async
function without awaiting it). -/
inductive JsVal where
  | bool (b : Bool)
  | promise (resolvesTo : Bool)
deriving DecidableEq, Repr

/-- JavaScript truthiness: every object, in particular every Promise, is
truthy regardless of what it will resolve to. -/
def JsVal.truthy : JsVal → Bool
  | .bool b => b
  | .promise _ => true

/-- syncService.syncUserProfile.  The local syncLog variable is still null
when the gateway fetch or the store upsert throws (the success log is only
created after the upsert), so the catch block's guarded updateSyncLog call
never runs and the error is rethrown with no log written. -/
def syncUserProfile (username : String) (env : Env) (now : Int) (db : DB)
    (tr : List String) : Except String UserRow × DB × List String :=
  let tr2 := tr ++ ["fetchProfile:" ++ username]
  match env.profileResult with
  | .error msg => (.error msg, db, tr2)
  | .ok gh =>
    match env.upsertUserFails with
    | some msg => (.error msg, db, tr2)
    | none =>
      let p := upsertUser gh now db
      match env.createSyncLogFails with
      | some msg => (.error msg, p.2, tr2)
      | none =>
        let q := createSyncLog p.1.id "profile" "success" 1 none now p.2
        (.ok p.1, q.2, tr2)

/-- syncService.syncUserRepositories: precondition check, started log,
fetch, bulk upsert, success update; the catch updates the started log to
failed when it exists. -/
def syncUserRepositories (username : String) (env : Env) (now : Int) (db : DB)
    (tr : List String) : Except String Nat × DB × List String :=
  match getUserByUsername username db with
  | none =>
      (.error ("User " ++ username ++ " not found in database. Sync profile first."),
       db, tr)
  | some user =>
    match env.createSyncLogFails with
    | some msg => (.error msg, db, tr)
    | none =>
      let c := createSyncLog user.id "repos" "started" 0 none now db
      let tr2 := tr ++ ["fetchRepositories:" ++ username]
      match env.reposResult with
      | .error msg =>
        match env.updateSyncLogFails with
        | some m2 => (.error m2, c.2, tr2)
        | none => (.error msg, updateSyncLog c.1.id "failed" 0 (some msg) now c.2, tr2)
      | .ok repos =>
        match env.upsertReposFails with
        | some msg =>
          match env.updateSyncLogFails with
          | some m2 => (.error m2, c.2, tr2)
          | none => (.error msg, updateSyncLog c.1.id "failed" 0 (some msg) now c.2, tr2)
        | none =>
          let u := upsertRepositories user.id repos now c.2
          match env.updateSyncLogFails with
          | some msg => (.error msg, u.2, tr2)
          | none => (.ok u.1, updateSyncLog c.1.id "success" u.1 none now u.2, tr2)

/-- syncService.syncUserEvents: precondition check, started log, fetch,
bulk insert, then return.  Unlike syncUserRepositories, the success path
performs no updateSyncLog call, so the started entry is returned as-is;
only the catch block (fetch or insert failure) updates it to failed. -/
def syncUserEvents (username : String) (env : Env) (now : Int) (db : DB)
    (tr : List String) : Except String Nat × DB × List String :=
  match getUserByUsername username db with
  | none =>
      (.error ("User " ++ username ++ " not found in database. Sync profile first."),
       db, tr)
  | some user =>
    match env.createSyncLogFails with
    | some msg => (.error msg, db, tr)
    | none =>
      let c := createSyncLog user.id "events" "started" 0 none now db
      let tr2 := tr ++ ["fetchEvents:" ++ username]
      match env.eventsResult with
      | .error msg =>
        match env.updateSyncLogFails with
        | some m2 => (.error m2, c.2, tr2)
        | none => (.error msg, updateSyncLog c.1.id "failed" 0 (some msg) now c.2, tr2)
      | .ok events =>
        match env.insertEventsFails with
        | some msg =>
          match env.updateSyncLogFails with
          | some m2 => (.error m2, c.2, tr2)
          | none => (.error msg, updateSyncLog c.1.id "failed" 0 (some msg) now c.2, tr2)
        | none =>
          let i := insertEvents user.id events c.2
          (.ok i.1, i.2, tr2)

/-- syncService.syncUserComplete: profile, then repositories, then events,
in that order; the first failure aborts the remaining steps and is rethrown. -/
def syncUserComplete (username : String) (env : Env) (now : Int) (db : DB)
    (tr : List String) : Except String (UserRow × Nat × Nat) × DB × List String :=
  match syncUserProfile username env now db tr with
  | (.error msg, db1, tr1) => (.error msg, db1, tr1)
  | (.ok user, db1, tr1) =>
    match syncUserRepositories username env now db1 tr1 with
    | (.error msg, db2, tr2) => (.error msg, db2, tr2)
    | (.ok reposCount, db2, tr2) =>
      match syncUserEvents username env now db2 tr2 with
      | (.error msg, db3, tr3) => (.error msg, db3, tr3)
      | (.ok eventsCount, db3, tr3) => (.ok (user, reposCount, eventsCount), db3, tr3)

/-- Whether pat occurs as a contiguous substring of hay
(String.prototype.includes). -/
def hasSubstr (hay pat : String) : Bool :=
  hay.data.tails.any (fun t => pat.data.isPrefixOf t)

/-- The catch block of githubController.getUser: HTTP status chosen purely
by substring of the error message. -/
def classifyHttpStatus (msg : String) : Nat :=
  if hasSubstr msg "not found" then 404
  else if hasSubstr msg "rate limit" then 429
  else 500

/-- The response of githubController.getUser, abstracting the Express
res object: a success JSON with its X-Cache header value, data, cached
flag and optional warning; a catch-classified error response; or the
early 400 validation response. -/
inductive Response where
  | success (cacheHeader : String) (data : UserRow) (cached : Bool)
      (warning : Option String)
  | failure (status : Nat) (message : String)
  | badRequest (message : String)
deriving DecidableEq, Repr

/-- The updated_at of the cached user as consulted by the staleness check
(short-circuit: only read when a cached user exists). -/
def cachedUpdatedAt : Option UserRow → Option Int
  | some u => u.updated_at
  | none => none

/-- CACHE_CONFIG.profile in githubController.js (minutes). -/
def cacheConfigProfile : Int := 60

/-- githubController.getUser.  The needsRefresh expression is
forceRefresh || !cachedUser || dbService.isDataStale(...): isDataStale is
an async function and the call is not awaited, so the third disjunct is a
Promise object, whose truthiness is taken. -/
def getUser (username : String) (forceRefresh : Bool) (env : Env) (now : Int)
    (db : DB) (tr : List String) : Response × DB × List String :=
  if username = "" then (.badRequest "Username is required", db, tr)
  else
    let cachedUser := getUserByUsername username db
    let staleCheck : JsVal :=
      .promise (isDataStale (cachedUpdatedAt cachedUser) cacheConfigProfile now)
    let needsRefresh : Bool := forceRefresh || cachedUser.isNone || staleCheck.truthy
    if needsRefresh then
      match syncUserProfile username env now db tr with
      | (.ok user, db1, tr1) => (.success "MISS" user false none, db1, tr1)
      | (.error msg, db1, tr1) =>
        match cachedUser with
        | some cu =>
            (.success "STALE" cu true (some "Returned stale data due to API error"),
             db1, tr1)
        | none => (.failure (classifyHttpStatus msg) msg, db1, tr1)
    else
      match cachedUser with
      | some cu => (.success "HIT" cu true none, db, tr)
      | none => (.failure 500 "cached user missing", db, tr)

/- Concrete instances used by witnesses and counterexamples. -/

/-- A cached users row for the subject alice, last refreshed at time 0. -/
def aliceRow : UserRow :=
  { id := 1, username := "alice", github_id := 100, name := "Alice",
    avatar_url := "a", bio := "b", public_repos := 1, followers := 2,
    following := 3, github_created_at := 0, updated_at := some 0 }

/-- A store holding exactly the cached alice row. -/
def dbAlice : DB :=
  { users := [aliceRow], repositories := [], events := [], sync_logs := [],
    nextUserId := 2, nextLogId := 1 }

/-- An empty store. -/
def emptyDB : DB :=
  { users := [], repositories := [], events := [], sync_logs := [],
    nextUserId := 1, nextLogId := 1 }

/-- The profile the gateway returns for alice. -/
def ghAlice : ProfileDTO :=
  { github_id := 100, username := "alice", name := "Alice", avatar_url := "a",
    bio := "b", public_repos := 1, followers := 2, following := 3,
    created_at := 0, updated_at := 0 }

/-- An environment in which every external call succeeds. -/
def envOk : Env :=
  { profileResult := .ok ghAlice, reposResult := .ok [], eventsResult := .ok [],
    upsertUserFails := none, upsertReposFails := none, insertEventsFails := none,
    createSyncLogFails := none, updateSyncLogFails := none }

/-- An environment in which the gateway reports that the subject does not
exist upstream (the message githubService throws on HTTP 404). -/
def envFetchNotFound : Env :=
  { envOk with profileResult := .error "Github user alice not found" }

/-- An environment in which the gateway is unavailable (the message
githubService throws on a network error). -/
def envUnavailable : Env :=
  { envOk with profileResult := .error "No response from Github API - network error" }

/-- An environment in which the users upsert fails at the store. -/
def envStoreFail : Env :=
  { envOk with upsertUserFails := some "connection terminated while writing users row" }

/-- An environment in which the repositories fetch fails. -/
def envReposFail : Env :=
  { envOk with reposResult := .error "No response from Github API - network error" }

/-- An environment in which the events fetch fails. -/
def envEventsFail : Env :=
  { envOk with eventsResult := .error "No response from Github API - network error" }

/- Helper lemmas. -/

section RatEval

attribute [local semireducible] Rat.mul Rat.inv

/-- An event id present in a list of rows stays present after appending rows. -/
theorem eventIdPresent_append (l1 l2 : List EventRow) (g : Nat)
    (h : eventIdPresent l1 g = true) : eventIdPresent (l1 ++ l2) g = true := by
  simp only [eventIdPresent, List.any_append, Bool.or_eq_true]
  exact Or.inl (by simpa [eventIdPresent] using h)

/-- insertEvents only appends fresh rows at the end of the events table and
returns exactly their number; every other component of the store is untouched. -/
theorem insertEvents_spec (userId : Nat) :
    ∀ (evs : List EventDTO) (db : DB),
      ∃ fresh : List EventRow,
        (insertEvents userId evs db).2 = { db with events := db.events ++ fresh } ∧
        (insertEvents userId evs db).1 = fresh.length := by
  intro evs
  induction evs with
  | nil =>
    intro db
    exact ⟨[], by simp [insertEvents], rfl⟩
  | cons e rest ih =>
    intro db
    by_cases h : eventIdPresent db.events e.id = true
    · obtain ⟨fresh, h1, h2⟩ := ih db
      exact ⟨fresh, by simp [insertEvents, h, h1], by simp [insertEvents, h, h2]⟩
    · have h2 : eventIdPresent db.events e.id = false := by simpa using h
      obtain ⟨fresh, h3, h4⟩ := ih { db with events := db.events ++ [eventRowOf userId e] }
      refine ⟨eventRowOf userId e :: fresh, ?_, ?_⟩
      · simp [insertEvents, h2, h3]
      · simp [insertEvents, h2, h4]

/-- After insertEvents, the id of every event of the input list is present. -/
theorem insertEvents_ids_present (userId : Nat) :
    ∀ (evs : List EventDTO) (db : DB) (e : EventDTO), e ∈ evs →
      eventIdPresent (insertEvents userId evs db).2.events e.id = true := by
  intro evs
  induction evs with
  | nil => intro db e he; exact absurd he (List.not_mem_nil e)
  | cons a rest ih =>
    intro db e he
    by_cases h : eventIdPresent db.events a.id = true
    · have hres : insertEvents userId (a :: rest) db = insertEvents userId rest db := by
        simp [insertEvents, h]
      rcases List.mem_cons.mp he with rfl | hm
      · obtain ⟨fresh, h1, _⟩ := insertEvents_spec userId rest db
        rw [hres, h1]
        exact eventIdPresent_append _ _ _ h
      · rw [hres]
        exact ih db e hm
    · have h2 : eventIdPresent db.events a.id = false := by simpa using h
      have hres : (insertEvents userId (a :: rest) db).2 =
          (insertEvents userId rest
            { db with events := db.events ++ [eventRowOf userId a] }).2 := by
        simp [insertEvents, h2]
      rcases List.mem_cons.mp he with rfl | hm
      · obtain ⟨fresh, h1, _⟩ := insertEvents_spec userId rest
          { db with events := db.events ++ [eventRowOf userId e] }
        rw [hres, h1]
        simp [eventIdPresent, List.any_append, eventRowOf]
      · rw [hres]
        exact ih { db with events := db.events ++ [eventRowOf userId a] } e hm

/-- insertEvents is a no-op when every input id is already present. -/
theorem insertEvents_all_present (userId : Nat) :
    ∀ (evs : List EventDTO) (db : DB),
      (∀ e ∈ evs, eventIdPresent db.events e.id = true) →
      insertEvents userId evs db = (0, db) := by
  intro evs
  induction evs with
  | nil => intro db _; rfl
  | cons a rest ih =>
    intro db hall
    have ha := hall a (List.mem_cons_self a rest)
    have hres : insertEvents userId (a :: rest) db = insertEvents userId rest db := by
      simp [insertEvents, ha]
    rw [hres]
    exact ih db (fun e he => hall e (List.mem_cons_of_mem a he))

/-- syncUserProfile performs exactly one gateway call, on every path. -/
theorem syncUserProfile_trace (username : String) (env : Env) (now : Int)
    (db : DB) (tr : List String) :
    (syncUserProfile username env now db tr).2.2 =
      tr ++ ["fetchProfile:" ++ username] := by
  unfold syncUserProfile
  cases env.profileResult <;> cases env.upsertUserFails <;>
    cases env.createSyncLogFails <;> simp

/-- createSyncLog does not touch the users table. -/
theorem createSyncLog_users (userId : Nat) (sy st : String) (r : Nat)
    (em : Option String) (now : Int) (db : DB) :
    (createSyncLog userId sy st r em now db).2.users = db.users := rfl

/-- updateSyncLog does not touch the users table. -/
theorem updateSyncLog_users (i : Nat) (st : String) (r : Nat)
    (em : Option String) (now : Int) (db : DB) :
    (updateSyncLog i st r em now db).users = db.users := rfl

/-- upsertRepositories does not touch the users table. -/
theorem upsertRepositories_users (userId : Nat) (repos : List RepoDTO)
    (now : Int) (db : DB) :
    (upsertRepositories userId repos now db).2.users = db.users := by
  unfold upsertRepositories
  cases repos <;> rfl

/-- getUserByUsername only reads the users table. -/
theorem getUserByUsername_users_eq (username : String) (db1 db2 : DB)
    (h : db1.users = db2.users) :
    getUserByUsername username db1 = getUserByUsername username db2 := by
  unfold getUserByUsername
  rw [h]

/-- find? skips a prefix in which nothing matches. -/
theorem find_append_of_none {α : Type} (p : α → Bool) :
    ∀ (l1 l2 : List α), l1.find? p = none → (l1 ++ l2).find? p = l2.find? p := by
  intro l1
  induction l1 with
  | nil => intro l2 _; rfl
  | cons a t ih =>
    intro l2 h
    cases hpa : p a with
    | true => rw [List.find?_cons_of_pos _ hpa] at h; cases h
    | false =>
      have hpa2 : ¬ p a = true := by simp [hpa]
      rw [List.find?_cons_of_neg _ hpa2] at h
      rw [List.cons_append, List.find?_cons_of_neg _ hpa2]
      exact ih l2 h

/-- find? commutes with an update applied exactly to the matching elements,
when the update preserves the predicate. -/
theorem find_map_upsert {α : Type} (p : α → Bool) (f : α → α)
    (hp : ∀ a, p (f a) = p a) :
    ∀ l : List α,
      (l.map (fun a => if p a then f a else a)).find? p = (l.find? p).map f := by
  intro l
  induction l with
  | nil => rfl
  | cons a t ih =>
    cases hpa : p a with
    | true =>
      have hfa : p (f a) = true := by rw [hp]; exact hpa
      simp only [List.map_cons, hpa, if_true]
      rw [List.find?_cons_of_pos _ hfa, List.find?_cons_of_pos _ hpa]
      rfl
    | false =>
      have hpa2 : ¬ p a = true := by simp [hpa]
      simp only [List.map_cons, hpa, Bool.false_eq_true, if_false]
      rw [List.find?_cons_of_neg _ hpa2, List.find?_cons_of_neg _ hpa2]
      exact ih

/-- The row returned by upsertUser is found again when looking the handle up. -/
theorem getUserByUsername_after_upsert (d : ProfileDTO) (now : Int) (db : DB) :
    getUserByUsername d.username (upsertUser d now db).2 =
      some (upsertUser d now db).1 := by
  unfold getUserByUsername upsertUser
  cases hf : db.users.find? (fun u => u.username == d.username) with
  | none =>
    simp only
    rw [find_append_of_none _ _ _ hf]
    simp [List.find?]
  | some u =>
    simp only
    have := find_map_upsert (fun u => u.username == d.username)
      (applyProfileUpdate d now) (fun a => by simp [applyProfileUpdate]) db.users
    rw [hf] at this
    exact this

/- Claim theorems. -/

/-- Claim C9: the staleness policy isDataStale returns true exactly when the
last-refresh timestamp is absent, or when the elapsed time now - lastRefreshed
strictly exceeds maxAgeMinutes minutes (timestamps in milliseconds); it is a
total pure function, so it has no side effects and no error conditions. -/
theorem isDataStale_characterization :
    ∀ (now maxAgeMinutes : Int),
      isDataStale none maxAgeMinutes now = true ∧
      ∀ t : Int, (isDataStale (some t) maxAgeMinutes now = true ↔
        now - t > 60000 * maxAgeMinutes) := by
  intro now m
  refine ⟨rfl, fun t => ?_⟩
  simp only [isDataStale, decide_eq_true_eq]
  rw [gt_iff_lt, div_div, lt_div_iff₀ (by norm_num : (0:ℚ) < 1000 * 60), gt_iff_lt]
  constructor
  · intro h
    have h2 : ((60000 * m : Int) : ℚ) < ((now - t : Int) : ℚ) := by
      push_cast
      push_cast at h
      linarith
    exact_mod_cast h2
  · intro h
    have h2 : ((60000 * m : Int) : ℚ) < ((now - t : Int) : ℚ) := by exact_mod_cast h
    push_cast at h2 ⊢
    linarith

/-- Claim C7: bulk event insertion is idempotent.  One insertion appends a
list of fresh rows (existing rows are never overwritten) and returns exactly
the number of newly inserted rows; repeating the same insertion leaves the
store unchanged and returns 0, so set and total count equal those after a
single insertion. -/
theorem insertEvents_idempotent :
    ∀ (userId : Nat) (evs : List EventDTO) (db : DB),
      (∃ fresh : List EventRow,
        (insertEvents userId evs db).2 = { db with events := db.events ++ fresh } ∧
        (insertEvents userId evs db).1 = fresh.length) ∧
      insertEvents userId evs (insertEvents userId evs db).2 =
        (0, (insertEvents userId evs db).2) := by
  intro userId evs db
  refine ⟨insertEvents_spec userId evs db, ?_⟩
  exact insertEvents_all_present userId evs _
    (fun e he => insertEvents_ids_present userId evs db e he)

/-- Claim C1 (refuted by the code, code bug): with a cached record present and
the staleness check reporting fresh, a forceRefresh=false request does NOT
take the HIT path and DOES invoke the gateway.  In the source, needsRefresh is
forceRefresh || !cachedUser || dbService.isDataStale(...), and isDataStale is
an async function whose un-awaited call yields a Promise object, which is
truthy, so needsRefresh never evaluates to false and the refresh branch is
always taken. -/
theorem getUser_fresh_cache_still_refreshes :
    ∀ (username : String) (env : Env) (now : Int) (db : DB) (tr : List String)
      (cu : UserRow),
    username ≠ "" →
    getUserByUsername username db = some cu →
    isDataStale cu.updated_at cacheConfigProfile now = false →
    (getUser username false env now db tr).2.2 = tr ++ ["fetchProfile:" ++ username] ∧
    ∀ d c w, (getUser username false env now db tr).1 ≠ Response.success "HIT" d c w := by
  intro username env now db tr cu hn hc _
  have htr := syncUserProfile_trace username env now db tr
  rcases hsp : syncUserProfile username env now db tr with ⟨r, db1, tr1⟩
  rw [hsp] at htr
  simp only at htr
  cases r with
  | ok u =>
    simp [getUser, if_neg hn, hc, JsVal.truthy, hsp, htr]
  | error msg =>
    simp [getUser, if_neg hn, hc, JsVal.truthy, hsp, htr]

/-- Claim C1 witness: a concrete fresh cached subject at forceRefresh=false. -/
theorem getUser_fresh_cache_still_refreshes_witness :
    (getUser "alice" false envOk 0 dbAlice []).2.2 = [] ++ ["fetchProfile:" ++ "alice"] ∧
    ∀ d c w, (getUser "alice" false envOk 0 dbAlice []).1 ≠ Response.success "HIT" d c w :=
  getUser_fresh_cache_still_refreshes "alice" envOk 0 dbAlice [] aliceRow
    (by decide) (by decide) (by decide)

/-- Claim C6: with a cached record older than the TTL and a failing gateway,
getUser returns the STALE fallback carrying the previously cached record
unchanged and the explicit warning, and the store is left unchanged. -/
theorem getUser_stale_fallback :
    ∀ (username : String) (env : Env) (now : Int) (db : DB) (tr : List String)
      (cu : UserRow) (msg : String),
    username ≠ "" →
    getUserByUsername username db = some cu →
    isDataStale cu.updated_at cacheConfigProfile now = true →
    env.profileResult = .error msg →
    getUser username false env now db tr =
      (.success "STALE" cu true (some "Returned stale data due to API error"), db,
       tr ++ ["fetchProfile:" ++ username]) := by
  intro username env now db tr cu msg hn hc _ hp
  simp [getUser, if_neg hn, hc, JsVal.truthy, syncUserProfile, hp]

/-- Claim C6 witness: alice cached at time 0, requested at time 10000000 ms
(about 167 minutes, past the 60-minute TTL) with the gateway unavailable. -/
theorem getUser_stale_fallback_witness :
    getUser "alice" false envUnavailable 10000000 dbAlice [] =
      (.success "STALE" aliceRow true (some "Returned stale data due to API error"),
       dbAlice, [] ++ ["fetchProfile:" ++ "alice"]) :=
  getUser_stale_fallback "alice" envUnavailable 10000000 dbAlice [] aliceRow
    "No response from Github API - network error"
    (by decide) (by decide) (by decide) rfl

/-- Claim C2 (refuted by the code, code bug): on the success path of
syncUserEvents the started audit-log entry created at the beginning of the
refresh is never mutated to a terminal status: the call returns ok while the
sync log holds exactly the appended entry, still with status started (the
success path of the source performs no updateSyncLog call, unlike
syncUserRepositories). -/
theorem syncUserEvents_success_leaves_log_started :
    ∀ (username : String) (env : Env) (now : Int) (db : DB) (tr : List String)
      (user : UserRow) (evs : List EventDTO),
    getUserByUsername username db = some user →
    env.createSyncLogFails = none →
    env.eventsResult = .ok evs →
    env.insertEventsFails = none →
    ∃ cnt db2,
      syncUserEvents username env now db tr =
        (.ok cnt, db2, tr ++ ["fetchEvents:" ++ username]) ∧
      db2.sync_logs = db.sync_logs ++
        [{ id := db.nextLogId, user_id := user.id, sync_type := "events",
           status := "started", records_synced := 0, error_message := none,
           started_at := now, completed_at := none }] := by
  intro username env now db tr user evs hu hcl he hi
  obtain ⟨fresh, h1, h2⟩ := insertEvents_spec user.id evs
    (createSyncLog user.id "events" "started" 0 none now db).2
  refine ⟨(insertEvents user.id evs
      (createSyncLog user.id "events" "started" 0 none now db).2).1,
    (insertEvents user.id evs
      (createSyncLog user.id "events" "started" 0 none now db).2).2, ?_, ?_⟩
  · simp [syncUserEvents, hu, hcl, he, hi]
  · rw [h1]
    simp [createSyncLog]

/-- Claim C2 witness: a concrete successful events refresh for a cached
subject, whose started log entry remains started after the call returns. -/
theorem syncUserEvents_success_leaves_log_started_witness :
    ∃ cnt db2,
      syncUserEvents "alice" envOk 5 dbAlice [] =
        (.ok cnt, db2, [] ++ ["fetchEvents:" ++ "alice"]) ∧
      db2.sync_logs = dbAlice.sync_logs ++
        [{ id := dbAlice.nextLogId, user_id := aliceRow.id, sync_type := "events",
           status := "started", records_synced := 0, error_message := none,
           started_at := 5, completed_at := none }] :=
  syncUserEvents_success_leaves_log_started "alice" envOk 5 dbAlice [] aliceRow []
    (by decide) rfl rfl rfl

/-- Claim C3 (refuted by the code, code bug): when the gateway fetch or the
store upsert fails in syncUserProfile, NO failed log entry is written: the
local syncLog variable is still null at that point (the success log is only
created after the upsert), so the guarded updateSyncLog in the catch never
runs; the store is returned entirely unchanged and the error propagates. -/
theorem syncUserProfile_failure_writes_no_log :
    ∀ (username : String) (env : Env) (now : Int) (db : DB) (tr : List String)
      (msg : String),
    (env.profileResult = .error msg →
      syncUserProfile username env now db tr =
        (.error msg, db, tr ++ ["fetchProfile:" ++ username])) ∧
    (∀ gh : ProfileDTO, env.profileResult = .ok gh →
      env.upsertUserFails = some msg →
      syncUserProfile username env now db tr =
        (.error msg, db, tr ++ ["fetchProfile:" ++ username])) := by
  intro username env now db tr msg
  constructor
  · intro hp
    simp [syncUserProfile, hp]
  · intro gh hp hu
    simp [syncUserProfile, hp, hu]

/-- Claim C3 witness: concrete fetch failure and concrete store failure, both
leaving the store (hence the sync log) unchanged while propagating the error. -/
theorem syncUserProfile_failure_writes_no_log_witness :
    syncUserProfile "alice" envFetchNotFound 5 dbAlice [] =
      (.error "Github user alice not found", dbAlice,
       [] ++ ["fetchProfile:" ++ "alice"]) ∧
    syncUserProfile "alice" envStoreFail 5 dbAlice [] =
      (.error "connection terminated while writing users row", dbAlice,
       [] ++ ["fetchProfile:" ++ "alice"]) :=
  ⟨(syncUserProfile_failure_writes_no_log "alice" envFetchNotFound 5 dbAlice []
      "Github user alice not found").1 rfl,
   (syncUserProfile_failure_writes_no_log "alice" envStoreFail 5 dbAlice []
      "connection terminated while writing users row").2 ghAlice rfl rfl⟩

/-- Claim C4 counterexample: the gateway reports the subject missing upstream
(an error message containing "not found") while a cached copy exists, and the
request answers with the STALE fallback success response instead of
propagating the failure: the catch in getUser absorbs every refresh error
whenever a cached copy exists. -/
theorem getUser_absorbs_upstream_not_found :
    envFetchNotFound.profileResult = Except.error "Github user alice not found" ∧
    hasSubstr "Github user alice not found" "not found" = true ∧
    getUserByUsername "alice" dbAlice = some aliceRow ∧
    (getUser "alice" false envFetchNotFound 5 dbAlice []).1 =
      Response.success "STALE" aliceRow true
        (some "Returned stale data due to API error") :=
  ⟨rfl, by decide, by decide, by decide⟩

/-- Claim C4 amended: an upstream not-found failure propagates to the caller
unchanged only when no cached copy exists; when a cached copy exists it is
absorbed into the STALE_FALLBACK response like any other refresh failure. -/
theorem getUser_upstream_not_found_amended :
    ∀ (username : String) (env : Env) (now : Int) (db : DB) (tr : List String)
      (msg : String),
    username ≠ "" →
    env.profileResult = .error msg →
    (getUserByUsername username db = none →
      (getUser username false env now db tr).1 =
        .failure (classifyHttpStatus msg) msg) ∧
    (∀ cu : UserRow, getUserByUsername username db = some cu →
      (getUser username false env now db tr).1 =
        .success "STALE" cu true (some "Returned stale data due to API error")) := by
  intro username env now db tr msg hn hp
  constructor
  · intro hc
    simp [getUser, if_neg hn, hc, JsVal.truthy, syncUserProfile, hp]
  · intro cu hc
    simp [getUser, if_neg hn, hc, JsVal.truthy, syncUserProfile, hp]

/-- Claim C4 amended witness: the not-found failure propagates (classified
404) without a cache, and is absorbed into STALE with a cache. -/
theorem getUser_upstream_not_found_amended_witness :
    (getUser "alice" false envFetchNotFound 5 emptyDB []).1 =
      Response.failure (classifyHttpStatus "Github user alice not found")
        "Github user alice not found" ∧
    (getUser "alice" false envFetchNotFound 5 dbAlice []).1 =
      Response.success "STALE" aliceRow true
        (some "Returned stale data due to API error") :=
  ⟨(getUser_upstream_not_found_amended "alice" envFetchNotFound 5 emptyDB []
      "Github user alice not found" (by decide) rfl).1 rfl,
   (getUser_upstream_not_found_amended "alice" envFetchNotFound 5 dbAlice []
      "Github user alice not found" (by decide) rfl).2 aliceRow (by decide)⟩

/-- Claim C5 counterexample: the store write fails during the refresh while a
cached copy exists, and the request answers with the successful STALE
fallback response instead of propagating the persistence failure. -/
theorem getUser_absorbs_persistence_error :
    envStoreFail.upsertUserFails =
      some "connection terminated while writing users row" ∧
    getUserByUsername "alice" dbAlice = some aliceRow ∧
    (getUser "alice" false envStoreFail 5 dbAlice []).1 =
      Response.success "STALE" aliceRow true
        (some "Returned stale data due to API error") :=
  ⟨rfl, by decide, by decide⟩

/-- Claim C5 amended: a store-write failure during the refresh propagates to
the caller only when no cached copy exists; when a cached copy exists it is
converted into the successful STALE_FALLBACK response like any other refresh
failure. -/
theorem getUser_persistence_error_amended :
    ∀ (username : String) (env : Env) (now : Int) (db : DB) (tr : List String)
      (gh : ProfileDTO) (msg : String),
    username ≠ "" →
    env.profileResult = .ok gh →
    env.upsertUserFails = some msg →
    (getUserByUsername username db = none →
      (getUser username false env now db tr).1 =
        .failure (classifyHttpStatus msg) msg) ∧
    (∀ cu : UserRow, getUserByUsername username db = some cu →
      (getUser username false env now db tr).1 =
        .success "STALE" cu true (some "Returned stale data due to API error")) := by
  intro username env now db tr gh msg hn hp hu
  constructor
  · intro hc
    simp [getUser, if_neg hn, hc, JsVal.truthy, syncUserProfile, hp, hu]
  · intro cu hc
    simp [getUser, if_neg hn, hc, JsVal.truthy, syncUserProfile, hp, hu]

/-- Claim C5 amended witness: the store failure propagates (classified 500)
without a cache, and is absorbed into STALE with a cache. -/
theorem getUser_persistence_error_amended_witness :
    (getUser "alice" false envStoreFail 5 emptyDB []).1 =
      Response.failure
        (classifyHttpStatus "connection terminated while writing users row")
        "connection terminated while writing users row" ∧
    (getUser "alice" false envStoreFail 5 dbAlice []).1 =
      Response.success "STALE" aliceRow true
        (some "Returned stale data due to API error") :=
  ⟨(getUser_persistence_error_amended "alice" envStoreFail 5 emptyDB [] ghAlice
      "connection terminated while writing users row" (by decide) rfl rfl).1 rfl,
   (getUser_persistence_error_amended "alice" envStoreFail 5 dbAlice [] ghAlice
      "connection terminated while writing users row" (by decide) rfl rfl).2
     aliceRow (by decide)⟩

/-- Shape of a fully successful syncUserProfile call. -/
theorem syncUserProfile_ok (username : String) (env : Env) (now : Int)
    (db : DB) (tr : List String) (gh : ProfileDTO)
    (hp : env.profileResult = .ok gh)
    (hu : env.upsertUserFails = none)
    (hc : env.createSyncLogFails = none) :
    syncUserProfile username env now db tr =
      (.ok (upsertUser gh now db).1,
       (createSyncLog (upsertUser gh now db).1.id "profile" "success" 1 none now
         (upsertUser gh now db).2).2,
       tr ++ ["fetchProfile:" ++ username]) := by
  simp [syncUserProfile, hp, hu, hc]

/-- Shape of a fully successful syncUserRepositories call; the users table is
left unchanged. -/
theorem syncUserRepositories_ok_shape (username : String) (env : Env)
    (now : Int) (db : DB) (tr : List String) (user : UserRow)
    (rs : List RepoDTO)
    (hu : getUserByUsername username db = some user)
    (hcl : env.createSyncLogFails = none)
    (hr : env.reposResult = .ok rs)
    (hur : env.upsertReposFails = none)
    (hud : env.updateSyncLogFails = none) :
    ∃ cnt db2, syncUserRepositories username env now db tr =
      (.ok cnt, db2, tr ++ ["fetchRepositories:" ++ username]) ∧
      db2.users = db.users := by
  refine ⟨(upsertRepositories user.id rs now
      (createSyncLog user.id "repos" "started" 0 none now db).2).1,
    updateSyncLog (createSyncLog user.id "repos" "started" 0 none now db).1.id
      "success"
      (upsertRepositories user.id rs now
        (createSyncLog user.id "repos" "started" 0 none now db).2).1 none now
      (upsertRepositories user.id rs now
        (createSyncLog user.id "repos" "started" 0 none now db).2).2, ?_, ?_⟩
  · simp [syncUserRepositories, hu, hcl, hr, hur, hud]
  · rw [updateSyncLog_users, upsertRepositories_users, createSyncLog_users]

/-- Shape of a syncUserRepositories call whose gateway fetch fails; the users
table is left unchanged and the error is propagated. -/
theorem syncUserRepositories_fetch_error_shape (username : String) (env : Env)
    (now : Int) (db : DB) (tr : List String) (user : UserRow) (msg : String)
    (hu : getUserByUsername username db = some user)
    (hcl : env.createSyncLogFails = none)
    (hr : env.reposResult = .error msg)
    (hud : env.updateSyncLogFails = none) :
    ∃ db2, syncUserRepositories username env now db tr =
      (.error msg, db2, tr ++ ["fetchRepositories:" ++ username]) ∧
      db2.users = db.users := by
  refine ⟨updateSyncLog (createSyncLog user.id "repos" "started" 0 none now db).1.id
      "failed" 0 (some msg) now
      (createSyncLog user.id "repos" "started" 0 none now db).2, ?_, ?_⟩
  · simp [syncUserRepositories, hu, hcl, hr, hud]
  · rw [updateSyncLog_users, createSyncLog_users]

/-- Shape of a syncUserEvents call whose gateway fetch fails; the users table
is left unchanged and the error is propagated. -/
theorem syncUserEvents_fetch_error_shape (username : String) (env : Env)
    (now : Int) (db : DB) (tr : List String) (user : UserRow) (msg : String)
    (hu : getUserByUsername username db = some user)
    (hcl : env.createSyncLogFails = none)
    (he : env.eventsResult = .error msg)
    (hud : env.updateSyncLogFails = none) :
    ∃ db2, syncUserEvents username env now db tr =
      (.error msg, db2, tr ++ ["fetchEvents:" ++ username]) ∧
      db2.users = db.users := by
  refine ⟨updateSyncLog (createSyncLog user.id "events" "started" 0 none now db).1.id
      "failed" 0 (some msg) now
      (createSyncLog user.id "events" "started" 0 none now db).2, ?_, ?_⟩
  · simp [syncUserEvents, hu, hcl, he, hud]
  · rw [updateSyncLog_users, createSyncLog_users]

/-- Shape of a fully successful syncUserEvents call; the users table is left
unchanged. -/
theorem syncUserEvents_ok_shape (username : String) (env : Env) (now : Int)
    (db : DB) (tr : List String) (user : UserRow) (es : List EventDTO)
    (hu : getUserByUsername username db = some user)
    (hcl : env.createSyncLogFails = none)
    (he : env.eventsResult = .ok es)
    (hie : env.insertEventsFails = none) :
    ∃ cnt db2, syncUserEvents username env now db tr =
      (.ok cnt, db2, tr ++ ["fetchEvents:" ++ username]) ∧
      db2.users = db.users := by
  obtain ⟨fresh, h1, _⟩ := insertEvents_spec user.id es
    (createSyncLog user.id "events" "started" 0 none now db).2
  refine ⟨(insertEvents user.id es
      (createSyncLog user.id "events" "started" 0 none now db).2).1,
    (insertEvents user.id es
      (createSyncLog user.id "events" "started" 0 none now db).2).2, ?_, ?_⟩
  · simp [syncUserEvents, hu, hcl, he, hie]
  · rw [h1]
    rfl

/-- Claim C10: the controller classifies every propagated failure solely by
substring of the error message: a message containing "not found" is returned
as HTTP 404, otherwise one containing "rate limit" as 429, and any other as
500; and the local precondition failure raised by syncUserRepositories when
the subject is missing from the store carries a message containing
"not found", so it is classified 404, indistinguishable from the upstream
subject-not-found message. -/
theorem getUser_classifies_by_substring :
    (∀ (username : String) (forceRefresh : Bool) (env : Env) (now : Int)
       (db : DB) (tr : List String) (st : Nat) (msg : String),
      (getUser username forceRefresh env now db tr).1 = .failure st msg →
      st = if hasSubstr msg "not found" then 404
           else if hasSubstr msg "rate limit" then 429 else 500) ∧
    (∀ (username : String) (env : Env) (now : Int) (db : DB) (tr : List String),
      getUserByUsername username db = none →
      (syncUserRepositories username env now db tr).1 =
        .error ("User " ++ username ++ " not found in database. Sync profile first.")) ∧
    classifyHttpStatus "User alice not found in database. Sync profile first." = 404 ∧
    classifyHttpStatus "Github user alice not found" = 404 := by
  refine ⟨?_, ?_, by decide, by decide⟩
  · intro username forceRefresh env now db tr st msg h
    by_cases hn : username = ""
    · simp [getUser, hn] at h
    · rcases hsp : syncUserProfile username env now db tr with ⟨r, db1, tr1⟩
      simp only [getUser, if_neg hn, JsVal.truthy, Bool.or_true, if_true, hsp] at h
      cases r with
      | ok u => simp at h
      | error m =>
        cases hc : getUserByUsername username db with
        | some cu => rw [hc] at h; simp at h
        | none =>
          rw [hc] at h
          simp only [Response.failure.injEq] at h
          obtain ⟨h1, h2⟩ := h
          rw [← h1, ← h2]
          rfl
  · intro username env now db tr hc
    simp [syncUserRepositories, hc]

/-- Claim C10 witness: a concrete propagated upstream not-found failure is
classified 404, and a concrete precondition failure carries the message whose
classification was just computed. -/
theorem getUser_classifies_by_substring_witness :
    ((404 : Nat) = if hasSubstr "Github user alice not found" "not found" then 404
        else if hasSubstr "Github user alice not found" "rate limit" then 429
        else 500) ∧
    (syncUserRepositories "bob" envOk 5 emptyDB []).1 =
      .error ("User " ++ "bob" ++ " not found in database. Sync profile first.") :=
  ⟨getUser_classifies_by_substring.1 "alice" false envFetchNotFound 5 emptyDB []
      404 "Github user alice not found" (by decide),
   getUser_classifies_by_substring.2.1 "bob" envOk 5 emptyDB [] (by decide)⟩

/-- Claim C8: syncUserComplete runs the profile refresh, then the
repositories refresh, then the events refresh, strictly in that order
(witnessed by the order of gateway calls in the trace), and a failure in any
of the three steps aborts the remaining steps and propagates to the caller,
with the effects of already completed steps not rolled back.  Conjuncts: a
profile-step failure (gateway fetch, or store upsert) propagates with no
repositories or events gateway call and the store unchanged; on a repositories
-step failure the events step is never reached (no events gateway call), the
error propagates, and the subject persisted by the profile step is still in
the store; on an events-step failure the error propagates and the subject
persisted by the profile step is still in the store. -/
theorem syncUserComplete_order_abort_no_rollback :
    ∀ (username : String) (env : Env) (now : Int) (db : DB) (tr : List String),
    (∀ msg : String, env.profileResult = .error msg →
      syncUserComplete username env now db tr =
        (.error msg, db, tr ++ ["fetchProfile:" ++ username])) ∧
    (∀ (gh : ProfileDTO) (msg : String), env.profileResult = .ok gh →
      env.upsertUserFails = some msg →
      syncUserComplete username env now db tr =
        (.error msg, db, tr ++ ["fetchProfile:" ++ username])) ∧
    (∀ gh : ProfileDTO, env.profileResult = .ok gh →
      gh.username = username →
      env.upsertUserFails = none →
      env.createSyncLogFails = none →
      env.updateSyncLogFails = none →
      (∀ rs es, env.reposResult = .ok rs → env.eventsResult = .ok es →
        env.upsertReposFails = none → env.insertEventsFails = none →
        ∃ user rc ec db3,
          syncUserComplete username env now db tr =
            (.ok (user, rc, ec), db3,
             tr ++ ["fetchProfile:" ++ username, "fetchRepositories:" ++ username,
                    "fetchEvents:" ++ username])) ∧
      (∀ msg, env.reposResult = .error msg →
        ∃ db3,
          syncUserComplete username env now db tr =
            (.error msg, db3,
             tr ++ ["fetchProfile:" ++ username, "fetchRepositories:" ++ username]) ∧
          (getUserByUsername username db3).isSome = true) ∧
      (∀ rs msg, env.reposResult = .ok rs → env.upsertReposFails = none →
        env.eventsResult = .error msg →
        ∃ db3,
          syncUserComplete username env now db tr =
            (.error msg, db3,
             tr ++ ["fetchProfile:" ++ username, "fetchRepositories:" ++ username,
                    "fetchEvents:" ++ username]) ∧
          (getUserByUsername username db3).isSome = true)) := by
  intro username env now db tr
  refine ⟨?_, ?_, ?_⟩
  · intro msg hp
    simp [syncUserComplete, syncUserProfile, hp]
  · intro gh msg hp hu
    simp [syncUserComplete, syncUserProfile, hp, hu]
  · intro gh hp hgu hup hcl hud
    subst hgu
    have hP := syncUserProfile_ok gh.username env now db tr gh hp hup hcl
    have hfind : getUserByUsername gh.username
        (createSyncLog (upsertUser gh now db).1.id "profile" "success" 1 none now
          (upsertUser gh now db).2).2 = some (upsertUser gh now db).1 := by
      rw [getUserByUsername_users_eq gh.username _ (upsertUser gh now db).2
        (createSyncLog_users _ _ _ _ _ _ _)]
      exact getUserByUsername_after_upsert gh now db
    refine ⟨?_, ?_, ?_⟩
    · intro rs es hr he hur hie
      obtain ⟨rc, db2, h2, h2u⟩ := syncUserRepositories_ok_shape gh.username env now
        (createSyncLog (upsertUser gh now db).1.id "profile" "success" 1 none now
          (upsertUser gh now db).2).2
        (tr ++ ["fetchProfile:" ++ gh.username]) (upsertUser gh now db).1 rs
        hfind hcl hr hur hud
      have hfind2 : getUserByUsername gh.username db2 = some (upsertUser gh now db).1 := by
        rw [getUserByUsername_users_eq gh.username db2 _ h2u]
        exact hfind
      obtain ⟨ec, db3, h3, _⟩ := syncUserEvents_ok_shape gh.username env now db2
        ((tr ++ ["fetchProfile:" ++ gh.username]) ++ ["fetchRepositories:" ++ gh.username])
        (upsertUser gh now db).1 es hfind2 hcl he hie
      refine ⟨(upsertUser gh now db).1, rc, ec, db3, ?_⟩
      simp only [syncUserComplete, hP, h2, h3]
      simp
    · intro msg hr
      obtain ⟨db2, h2, h2u⟩ := syncUserRepositories_fetch_error_shape gh.username env
        now
        (createSyncLog (upsertUser gh now db).1.id "profile" "success" 1 none now
          (upsertUser gh now db).2).2
        (tr ++ ["fetchProfile:" ++ gh.username]) (upsertUser gh now db).1 msg
        hfind hcl hr hud
      refine ⟨db2, ?_, ?_⟩
      · simp only [syncUserComplete, hP, h2]
        simp
      · rw [getUserByUsername_users_eq gh.username db2 _ h2u, hfind]
        rfl
    · intro rs msg hr hur he
      obtain ⟨rc, db2, h2, h2u⟩ := syncUserRepositories_ok_shape gh.username env now
        (createSyncLog (upsertUser gh now db).1.id "profile" "success" 1 none now
          (upsertUser gh now db).2).2
        (tr ++ ["fetchProfile:" ++ gh.username]) (upsertUser gh now db).1 rs
        hfind hcl hr hur hud
      have hfind2 : getUserByUsername gh.username db2 = some (upsertUser gh now db).1 := by
        rw [getUserByUsername_users_eq gh.username db2 _ h2u]
        exact hfind
      obtain ⟨db3, h3, h3u⟩ := syncUserEvents_fetch_error_shape gh.username env now db2
        ((tr ++ ["fetchProfile:" ++ gh.username]) ++ ["fetchRepositories:" ++ gh.username])
        (upsertUser gh now db).1 msg hfind2 hcl he hud
      refine ⟨db3, ?_, ?_⟩
      · simp only [syncUserComplete, hP, h2, h3]
        simp
      · rw [getUserByUsername_users_eq gh.username db3 _ h3u, hfind2]
        rfl

/-- Claim C8 witness: concrete instances of all five cases: a profile fetch
failure and a profile store failure aborting everything with the store
unchanged, a fully successful complete sync showing the
profile-repositories-events gateway order, a repositories failure aborting
the events step while the profile-step user persists, and an events failure
propagating while the profile-step user persists. -/
theorem syncUserComplete_order_abort_no_rollback_witness :
    syncUserComplete "alice" envFetchNotFound 5 emptyDB [] =
      (.error "Github user alice not found", emptyDB,
       [] ++ ["fetchProfile:" ++ "alice"]) ∧
    syncUserComplete "alice" envStoreFail 5 emptyDB [] =
      (.error "connection terminated while writing users row", emptyDB,
       [] ++ ["fetchProfile:" ++ "alice"]) ∧
    (∃ user rc ec db3,
      syncUserComplete "alice" envOk 5 emptyDB [] =
        (.ok (user, rc, ec), db3,
         [] ++ ["fetchProfile:" ++ "alice", "fetchRepositories:" ++ "alice",
                "fetchEvents:" ++ "alice"])) ∧
    (∃ db3,
      syncUserComplete "alice" envReposFail 5 emptyDB [] =
        (.error "No response from Github API - network error", db3,
         [] ++ ["fetchProfile:" ++ "alice", "fetchRepositories:" ++ "alice"]) ∧
      (getUserByUsername "alice" db3).isSome = true) ∧
    (∃ db3,
      syncUserComplete "alice" envEventsFail 5 emptyDB [] =
        (.error "No response from Github API - network error", db3,
         [] ++ ["fetchProfile:" ++ "alice", "fetchRepositories:" ++ "alice",
                "fetchEvents:" ++ "alice"]) ∧
      (getUserByUsername "alice" db3).isSome = true) :=
  ⟨(syncUserComplete_order_abort_no_rollback "alice" envFetchNotFound 5 emptyDB []).1
      "Github user alice not found" rfl,
   (syncUserComplete_order_abort_no_rollback "alice" envStoreFail 5 emptyDB []).2.1
      ghAlice "connection terminated while writing users row" rfl rfl,
   ((syncUserComplete_order_abort_no_rollback "alice" envOk 5 emptyDB []).2.2
      ghAlice rfl rfl rfl rfl rfl).1 [] [] rfl rfl rfl rfl,
   ((syncUserComplete_order_abort_no_rollback "alice" envReposFail 5 emptyDB []).2.2
      ghAlice rfl rfl rfl rfl rfl).2.1
     "No response from Github API - network error" rfl,
   ((syncUserComplete_order_abort_no_rollback "alice" envEventsFail 5 emptyDB []).2.2
      ghAlice rfl rfl rfl rfl rfl).2.2 []
     "No response from Github API - network error" rfl rfl rfl⟩

end RatEval

end DevPulse
